import Mathlib

/-!
Verification of the URL router of the jsweb framework
(file src/jsweb/routing.py: classes Route and Router).

The embedding below translates routing.py into Lean:

* Python callables (view handlers) are opaque: a handler is modelled as an
  id together with its declared name (the name feeds the endpoint default,
  Python `handler.__name__`).
* Python dicts are association lists with insert-overwrite semantics and
  first-hit lookup; `set(methods)` is kept as the method list, since the
  code only ever tests membership.
* Python exceptions become an `Except` result; the three raise sites of
  routing.py (NotFound, MethodNotAllowed, ValueError) keep their message
  strings.
* The regular expressions produced by `Route._compile_path` fall into a
  small fragment: an anchored sequence of literal characters and named
  groups whose bodies are `[^/]+`, a digit run `\d+`, or the non-greedy
  `.+?`.  That fragment is embedded as a token list and matched by a
  backtracking matcher (`mrun`).  A literal dot keeps its regex meaning
  (any character other than a newline) because the source interpolates the
  path into the pattern without escaping; the embedding covers path
  patterns whose literal text contains no regex metacharacter other than
  the dot, and ASCII text (Lean `Char.isDigit` is ASCII while Python
  `\d` also accepts other Unicode digits).
* `Route.TYPE_CONVERTERS` is a class-level dict shared by all routes, so
  the compilation step takes the table as an argument; the shipped table
  `Route.TYPE_CONVERTERS` is the default used by `Router.add_route`.
-/

/-- A parameter value extracted by a route: Python `int` or `str` results
of the type converters. -/
inductive Value
  | vInt (n : Int)
  | vStr (s : String)
deriving DecidableEq, Repr

/-- A view handler: an opaque callable, modelled as an id plus the
declared function name (used for the Python `handler.__name__` endpoint
default). -/
structure Handler where
  id : Nat
  name : String
deriving DecidableEq, Repr

/-- A type converter: Python calls the function on the captured substring;
`none` models the call raising ValueError or TypeError. -/
def Conv : Type := String → Option Value

/-- The regex bodies that `Route._compile_path` puts inside a named
capturing group: `[^/]+` for str, `\d+` for int, and the non-greedy
`.+?` for path. -/
inductive RegexPart
  | nonSlashPlus
  | digitPlus
  | anyPlusLazy
deriving DecidableEq, Repr

/-- Which characters the group body accepts (`.` does not match a
newline without DOTALL). -/
def RegexPart.test : RegexPart → Char → Bool
  | .nonSlashPlus, c => c ≠ '/'
  | .digitPlus, c => c.isDigit
  | .anyPlusLazy, c => c ≠ '\n'

/-- Whether the group body repeats non-greedily (`.+?`). -/
def RegexPart.isLazy : RegexPart → Bool
  | .anyPlusLazy => true
  | .nonSlashPlus => false
  | .digitPlus => false

/-- One element of a compiled route pattern: a literal character of the
path, or a named capturing group `(?P<name>body)`. -/
inductive Tok
  | lit (c : Char)
  | group (name : String) (part : RegexPart)
deriving DecidableEq, Repr

/-- A literal pattern character against a subject character.  A literal
dot is a regex wildcard (the source does not escape the path text when
building the pattern); every other covered literal matches itself. -/
def litMatch (pc x : Char) : Bool :=
  if pc = '.' then x ≠ '\n' else pc = x

/-- State of the backtracking matcher: working through the token list, or
inside a group that has consumed `acc` so far. -/
inductive MState
  | toks
  | ingroup (name : String) (part : RegexPart) (acc : List Char)

/-- Backtracking matcher for the compiled pattern fragment, anchored at
both ends like the `^...$` pattern of `_compile_path` under `re.match`.
Greedy group bodies extend first and fall back to closing the group;
the non-greedy body closes first.  The fuel argument only forces
structural recursion; `tokensMatch` passes enough for the search
(every recursive call decreases the quantity
tokens + 2*(subject length) + (1 if inside a group), so the depth of any
call chain is bounded by its initial value). -/
def mrun : Nat → MState → List Tok → List Char → Option (List (String × String))
  | 0, _, _, _ => none
  | _ + 1, .toks, [], cs => if cs.isEmpty then some [] else none
  | _ + 1, .toks, .lit _ :: _, [] => none
  | f + 1, .toks, .lit c :: ts, x :: xs =>
      if litMatch c x then mrun f .toks ts xs else none
  | _ + 1, .toks, .group _ _ :: _, [] => none
  | f + 1, .toks, .group n cls :: ts, x :: xs =>
      if cls.test x then mrun f (.ingroup n cls [x]) ts xs else none
  | f + 1, .ingroup n cls acc, ts, cs =>
      if cls.isLazy then
        match mrun f .toks ts cs with
        | some bs => some ((n, acc.asString) :: bs)
        | none =>
            match cs with
            | [] => none
            | x :: xs =>
                if cls.test x then mrun f (.ingroup n cls (acc ++ [x])) ts xs
                else none
      else
        match cs with
        | [] => (mrun f .toks ts cs).map (fun bs => (n, acc.asString) :: bs)
        | x :: xs =>
            if cls.test x then
              match mrun f (.ingroup n cls (acc ++ [x])) ts xs with
              | some r => some r
              | none => (mrun f .toks ts cs).map (fun bs => (n, acc.asString) :: bs)
            else (mrun f .toks ts cs).map (fun bs => (n, acc.asString) :: bs)

/-- Anchored match of a compiled pattern against a subject, returning the
named captures in group order (Python `match.groupdict()`, whose order is
the group definition order). -/
def tokensMatch (ts : List Tok) (cs : List Char) : Option (List (String × String)) :=
  mrun (ts.length + 2 * cs.length + 2) .toks ts cs

/-- The class-level converter table: a map from type name to the pair of
conversion function and regex body (Python
`{'str': (str, r'[^/]+'), 'int': (int, r'\d+'), 'path': (str, r'.+?')}`). -/
def TypeTable : Type := List (String × (Conv × RegexPart))

/-- Decimal value of a digit run, failing at the first non-digit. -/
def decDigits (acc : Nat) : List Char → Option Nat
  | [] => some acc
  | c :: cs =>
      if c.isDigit then decDigits (acc * 10 + (c.toNat - '0'.toNat)) cs
      else none

/-- The `int` converter: Python `int(...)` on the captured string.  A
capture of `\d+` is a nonempty ASCII digit run, on which `int` returns its
decimal value; on any other string the model fails like `int` raising
ValueError.  (Python `int` also accepts signs, spaces, underscores and
Unicode digits, none of which a `\d+` capture of this fragment produces.) -/
def pyIntConv : Conv := fun s =>
  match s.data with
  | [] => none
  | c :: cs => (decDigits 0 (c :: cs)).map (fun n => Value.vInt (Int.ofNat n))

/-- The `str` converter: Python `str(...)` on a string is the identity. -/
def pyStrConv : Conv := fun s => some (Value.vStr s)

/-- `Route.TYPE_CONVERTERS` of routing.py, in dict insertion order. -/
def Route.TYPE_CONVERTERS : TypeTable :=
  [("str", (pyStrConv, RegexPart.nonSlashPlus)),
   ("int", (pyIntConv, RegexPart.digitPlus)),
   ("path", (pyStrConv, RegexPart.anyPlusLazy))]

/-- `self.TYPE_CONVERTERS.get(type_name, self.TYPE_CONVERTERS['str'])`:
unknown type names fall back to the `str` entry of the table.  The final
default repeats the str semantics; Python instead raises KeyError when
the table itself lacks a `str` entry, which never happens for the shipped
table. -/
def lookupType (tc : TypeTable) (ty : String) : Conv × RegexPart :=
  match tc.lookup ty with
  | some cp => cp
  | none =>
      match tc.lookup "str" with
      | some cp => cp
      | none => (pyStrConv, RegexPart.nonSlashPlus)

/-- Python `\w`: word characters.  ASCII letters, digits and underscore
(Python also accepts other Unicode word characters). -/
def isWordChar (c : Char) : Bool :=
  c.isAlphanum || c = '_'

/-- Does the text accumulated between `<` and `>` have the shape
`\w+:\w+` of a parameter marker? -/
def splitMarker (acc : List Char) : Option (String × String) :=
  let ty := acc.takeWhile isWordChar
  match acc.dropWhile isWordChar with
  | ':' :: cs2 =>
      let nm := cs2.takeWhile isWordChar
      if ty.isEmpty || nm.isEmpty || !(cs2.dropWhile isWordChar).isEmpty then none
      else some (ty.asString, nm.asString)
  | _ => none

/-- Text that turned out not to be a marker stays literal in the pattern. -/
def litToks (cs : List Char) : List Tok :=
  cs.map Tok.lit

/-- Scan of the route path, equivalent to
`re.findall(r"<(\w+):(\w+)>", path)` followed by replacing each marker
occurrence with its named capturing group: a `<` opens a candidate
marker, word characters and colons accumulate inside it, a `>` closes it
(falling back to literal text when the accumulated shape is not
`\w+:\w+`), and any other character flushes the candidate as literal
text.  Returns the token list, the parameter names in pattern order
(`param_names`), and the per-name converters (`self.converters`). -/
def scanPath (tc : TypeTable) :
    Option (List Char) → List Char → List Tok × List String × List (String × Conv)
  | none, [] => ([], [], [])
  | none, c :: rest =>
      if c = '<' then scanPath tc (some []) rest
      else
        let r := scanPath tc none rest
        (Tok.lit c :: r.1, r.2)
  | some acc, [] => (litToks ('<' :: acc), [], [])
  | some acc, c :: rest =>
      if c = '>' then
        match splitMarker acc with
        | some tynm =>
            let cp := lookupType tc tynm.1
            let r := scanPath tc none rest
            (Tok.group tynm.2 cp.2 :: r.1, tynm.2 :: r.2.1, (tynm.2, cp.1) :: r.2.2)
        | none =>
            let r := scanPath tc none rest
            (litToks ('<' :: acc) ++ Tok.lit '>' :: r.1, r.2)
      else if c = '<' then
        let r := scanPath tc (some []) rest
        (litToks ('<' :: acc) ++ r.1, r.2)
      else if isWordChar c || c = ':' then
        scanPath tc (some (acc ++ [c])) rest
      else
        let r := scanPath tc none rest
        (litToks ('<' :: acc) ++ Tok.lit c :: r.1, r.2)

/-- `Route._compile_path`: compile the path into the token list and
record parameter names and converters. -/
def compilePath (tc : TypeTable) (path : String) :
    List Tok × List String × List (String × Conv) :=
  scanPath tc none path.data

/-- One Route of routing.py.  `methods_set` keeps the method list (the
code only tests membership in `set(methods)`); `regex` is the compiled
token list, present exactly for dynamic routes; `converters` maps each
parameter name to its conversion function. -/
structure Route where
  path : String
  handler : Handler
  methods_set : List String
  endpoint : String
  converters : List (String × Conv)
  is_static : Bool
  regex : Option (List Tok)
  param_names : List String

/-- `Route.__init__`: `is_static` is `'<' not in path`; a dynamic route
compiles its pattern, a static route carries no pattern and no
parameters. -/
def mkRoute (tc : TypeTable) (path : String) (handler : Handler)
    (methods : List String) (endpoint : String) : Route :=
  if path.data.contains '<' then
    let c := compilePath tc path
    ⟨path, handler, methods, endpoint, c.2.2, false, some c.1, c.2.1⟩
  else
    ⟨path, handler, methods, endpoint, [], true, none, []⟩

/-- `self.regex.match(path)` for the stored pattern.  A static route
stores `None`; calling match on it is unreachable in `Route.match`
(guarded by `is_static`) and is modelled as no match. -/
def regexMatch (re : Option (List Tok)) (path : String) :
    Option (List (String × String)) :=
  match re with
  | none => none
  | some ts => tokensMatch ts path.data

/-- The conversion loop of `Route.match`: convert each captured value
with its named converter; a failing conversion (Python ValueError or
TypeError, caught by the `except` clause) makes the whole match fail.
A name absent from `converters` cannot arise, since groups and
converters are built from the same scan (Python would raise an uncaught
KeyError there). -/
def convertParams (convs : List (String × Conv)) (groups : List (String × String)) :
    Option (List (String × Value)) :=
  groups.mapM (fun nv =>
    match convs.lookup nv.1 with
    | none => none
    | some f => (f nv.2).map (fun v => (nv.1, v)))

/-- `Route.match`: a static route compares strings for equality and
returns an empty parameter dict; a dynamic route applies the compiled
pattern and then converts the captures. -/
def Route.matchPath (rt : Route) (path : String) : Option (List (String × Value)) :=
  if rt.is_static then
    if path = rt.path then some [] else none
  else
    match regexMatch rt.regex path with
    | none => none
    | some groups => convertParams rt.converters groups

/-- The error values raised by routing.py: the NotFound and
MethodNotAllowed exception classes of resolution, and the ValueError
raises of registration and reverse lookup, each with its message. -/
inductive PyErr
  | notFound (msg : String)
  | methodNotAllowed (msg : String)
  | valueError (msg : String)
deriving DecidableEq, Repr

/-- Python dict assignment on an association list: overwrite in place
when the key is present (keeping its position, as dicts do), append
otherwise. -/
def dictInsert (k : String) (v : Route) : List (String × Route) → List (String × Route)
  | [] => [(k, v)]
  | kv :: rest => if kv.1 = k then (k, v) :: rest else kv :: dictInsert k v rest

/-- The Router of routing.py.  `static_routes` and `endpoints` are dicts,
`dynamic_routes` the ordered registration list; `static_url_path` and
`static_dir` are set by the host application and unused here. -/
structure Router where
  static_routes : List (String × Route)
  dynamic_routes : List Route
  endpoints : List (String × Route)
  static_url_path : Option String
  static_dir : Option String

/-- `Router.__init__`. -/
def Router.empty : Router := ⟨[], [], [], none, none⟩

/-- `Router.add_route`: default the methods to `["GET"]` and the endpoint
to the handler name, reject an endpoint name present in `endpoints`, build
the Route with the class-level converter table, and insert it into the
static dict or append it to the dynamic list.  As in the source, nothing
is ever stored into `endpoints`. -/
def Router.add_route (r : Router) (path : String) (handler : Handler)
    (methods : Option (List String)) (endpoint : Option String) :
    Except PyErr Router :=
  let methods := methods.getD ["GET"]
  let endpoint := endpoint.getD handler.name
  if (r.endpoints.lookup endpoint).isSome then
    .error (.valueError s!"Endpoint \"{endpoint}\" is already registered.")
  else
    let route := mkRoute Route.TYPE_CONVERTERS path handler methods endpoint
    if route.is_static then
      .ok { r with static_routes := dictInsert path route r.static_routes }
    else
      .ok { r with dynamic_routes := r.dynamic_routes ++ [route] }

/-- The dynamic-route scan of `Router.resolve`, in state-passing form:
walk the registration list, skip a route whose method set lacks the
request method without attempting the pattern (the cheap rejection), and
return the first route whose pattern matches; the router travels through
the loop unchanged by the source code.  An empty remainder raises
NotFound. -/
def resolveDynS : List Route → String → String → Router →
    Except PyErr (Handler × List (String × Value)) × Router
  | [], path, _, r => (.error (.notFound s!"No route found for {path}"), r)
  | route :: rest, path, method, r =>
      if method ∈ route.methods_set then
        match route.matchPath path with
        | some params => (.ok (route.handler, params), r)
        | none => resolveDynS rest path method r
      else
        resolveDynS rest path method r

/-- `Router.resolve` in state-passing form: the exact static lookup comes
first (method mismatch there raises MethodNotAllowed), then the dynamic
scan; the second component is the router state after the call. -/
def Router.resolveS (r : Router) (path method : String) :
    Except PyErr (Handler × List (String × Value)) × Router :=
  match r.static_routes.lookup path with
  | some route =>
      if method ∈ route.methods_set then
        (.ok (route.handler, []), r)
      else
        (.error (.methodNotAllowed s!"Method {method} not allowed for path {path}."), r)
  | none => resolveDynS r.dynamic_routes path method r

/-- The outcome of `Router.resolve`. -/
def Router.resolve (r : Router) (path method : String) :
    Except PyErr (Handler × List (String × Value)) :=
  (r.resolveS path method).1

/-- Python `pattern in path` on character lists. -/
def listIsSub (pat : List Char) : List Char → Bool
  | [] => pat.isEmpty
  | c :: cs => pat.isPrefixOf (c :: cs) || listIsSub pat cs

/-- Python `str.replace`: replace every occurrence of `pat`, scanning
left to right without overlap.  The empty-pattern case (on which Python
interleaves the replacement everywhere) never arises from url_for, whose
patterns start with a `<`. -/
def listReplaceAll (pat rep : List Char) : List Char → List Char
  | [] => []
  | c :: cs =>
      if h : pat.isPrefixOf (c :: cs) ∧ pat ≠ [] then
        rep ++ listReplaceAll pat rep ((c :: cs).drop pat.length)
      else
        c :: listReplaceAll pat rep cs
termination_by cs => cs.length
decreasing_by
  · simp only [List.length_drop]
    have : pat.length ≠ 0 := fun h0 => h.2 (List.length_eq_zero.mp h0)
    simp only [List.length_cons]
    omega
  · simp

/-- Python `str(...)` of a parameter value passed to url_for. -/
def pyStr : Value → String
  | .vInt n => toString n
  | .vStr s => s

/-- The inner loop of `Router.url_for`: walk the type names of the
class-level table, and at the first type whose marker `<type:name>`
occurs in the path, replace every occurrence of that marker with the
value text and stop.  When no type marker for the name occurs, the path
stays unchanged (the source loop just runs out). -/
def substFirstType (pn : String) (vs : List Char) :
    List String → List Char → List Char
  | [], path => path
  | ty :: tys, path =>
      let pat := '<' :: ty.data ++ ':' :: pn.data ++ ['>']
      if listIsSub pat path then listReplaceAll pat vs path
      else substFirstType pn vs tys path

/-- The outer loop of `Router.url_for`: each declared parameter name must
be present among the arguments (else ValueError for the missing
parameter), and substitutes its marker into the path. -/
def urlForLoop (params : List (String × Value)) (endpoint : String) :
    List String → List Char → Except PyErr String
  | [], path => .ok path.asString
  | pn :: rest, path =>
      match params.lookup pn with
      | none =>
          .error (.valueError
            s!"Missing parameter \x27{pn}\x27 for endpoint \x27{endpoint}\x27.")
      | some v =>
          urlForLoop params endpoint rest
            (substFirstType pn (pyStr v).data (Route.TYPE_CONVERTERS.map Prod.fst) path)

/-- `Router.url_for`: reverse lookup through `endpoints`; a static route
returns its literal path, a dynamic route substitutes each declared
parameter in pattern order. -/
def Router.url_for (r : Router) (endpoint : String) (params : List (String × Value)) :
    Except PyErr String :=
  match r.endpoints.lookup endpoint with
  | none => .error (.valueError s!"No route found for endpoint \x27{endpoint}\x27.")
  | some route =>
      if route.is_static then .ok route.path
      else urlForLoop params endpoint route.param_names route.path.data

/-- Convenience builder for example routers: perform a registration that
is known to succeed (used only with inputs on which `add_route` returns
no error). -/
def addRoute! (r : Router) (path : String) (handler : Handler)
    (methods : List String) (endpoint : String) : Router :=
  ((r.add_route path handler (some methods) (some endpoint)).toOption).getD r

deriving instance DecidableEq for Except

/-- The dynamic scan leaves the router state untouched. -/
theorem resolveDynS_snd (routes : List Route) (p m : String) (r : Router) :
    (resolveDynS routes p m r).2 = r := by
  induction routes with
  | nil => rfl
  | cons rt rest ih =>
      simp only [resolveDynS]
      by_cases hm : m ∈ rt.methods_set
      · simp only [if_pos hm]
        cases rt.matchPath p with
        | some ps => rfl
        | none => exact ih
      · simpa [if_neg hm] using ih

/-- A leading block of routes that each fail the method test or the
pattern test is skipped by the dynamic scan. -/
theorem resolveDynS_append_skip (pre rest : List Route) (p m : String) (r : Router)
    (h : ∀ rt ∈ pre, m ∉ rt.methods_set ∨ rt.matchPath p = none) :
    resolveDynS (pre ++ rest) p m r = resolveDynS rest p m r := by
  induction pre with
  | nil => rfl
  | cons rt pre ih =>
      rw [List.cons_append]
      have step : resolveDynS (rt :: (pre ++ rest)) p m r = resolveDynS (pre ++ rest) p m r := by
        rcases h rt (by simp) with hm | hmt
        · simp [resolveDynS, if_neg hm]
        · by_cases hm : m ∈ rt.methods_set
          · simp [resolveDynS, if_pos hm, hmt]
          · simp [resolveDynS, if_neg hm]
      rw [step, ih (fun x hx => h x (by simp [hx]))]

/-- C9: resolution is pure and deterministic: for every Router state and
every (path, method) input, the call leaves the router exactly as it was,
and a second call with identical inputs against the router returned by
the first call produces the same outcome. -/
theorem resolve_pure_and_deterministic (r : Router) (p m : String) :
    (r.resolveS p m).2 = r ∧
      ((r.resolveS p m).2).resolveS p m = r.resolveS p m := by
  have h2 : (r.resolveS p m).2 = r := by
    unfold Router.resolveS
    cases hl : r.static_routes.lookup p with
    | none => exact resolveDynS_snd _ p m r
    | some rt => by_cases hm : m ∈ rt.methods_set <;> simp [hm]
  exact ⟨h2, by rw [h2]⟩

/-- C3: a route found in the static table dispatches on the method: a
member method returns the handler with the empty parameter dict, any
other method raises MethodNotAllowed. -/
theorem static_route_method_dispatch (r : Router) (p m : String) (rt : Route)
    (hs : rt.is_static = true)
    (hlook : r.static_routes.lookup p = some rt) :
    (m ∈ rt.methods_set → r.resolve p m = .ok (rt.handler, [])) ∧
    (m ∉ rt.methods_set →
      r.resolve p m =
        .error (.methodNotAllowed s!"Method {m} not allowed for path {p}.")) := by
  constructor
  · intro hm
    simp [Router.resolve, Router.resolveS, hlook, hm]
  · intro hm
    simp [Router.resolve, Router.resolveS, hlook, hm]

/-- Example router with the single static route `/t`, methods `["GET"]`. -/
def c3route : Route := mkRoute Route.TYPE_CONVERTERS "/t" ⟨7, "th"⟩ ["GET"] "t"

/-- Example router holding `c3route`. -/
def c3router : Router := addRoute! Router.empty "/t" ⟨7, "th"⟩ ["GET"] "t"

/-- Witness for C3 at the router with static route `/t` for GET: GET is
dispatched to the handler and POST raises MethodNotAllowed. -/
theorem static_route_method_dispatch_witness :
    c3router.resolve "/t" "GET" = .ok (⟨7, "th"⟩, []) ∧
    c3router.resolve "/t" "POST" =
      .error (.methodNotAllowed "Method POST not allowed for path /t.") := by
  have h1 := static_route_method_dispatch c3router "/t" "GET" c3route (by decide) rfl
  have h2 := static_route_method_dispatch c3router "/t" "POST" c3route (by decide) rfl
  exact ⟨h1.1 (by decide), h2.2 (by decide)⟩

/-- C5: among dynamic routes, registration order decides: when route A
precedes route B in the registration list, every earlier candidate is
rejected (by method or by pattern), and both A and B accept the method
and match the path, resolution returns the handler and parameters of A —
first registered wins, with no specificity scoring, after the static
table (which lacks the path) was consulted. -/
theorem first_registered_dynamic_wins (r : Router) (p m : String)
    (A B : Route) (l1 l2 l3 : List Route) (pa pb : List (String × Value))
    (hstat : r.static_routes.lookup p = none)
    (hdyn : r.dynamic_routes = l1 ++ A :: (l2 ++ B :: l3))
    (hskip : ∀ rt ∈ l1, m ∉ rt.methods_set ∨ rt.matchPath p = none)
    (hma : m ∈ A.methods_set) (hA : A.matchPath p = some pa)
    (hmb : m ∈ B.methods_set) (hB : B.matchPath p = some pb) :
    r.resolve p m = .ok (A.handler, pa) := by
  have hskip2 : resolveDynS (l1 ++ A :: (l2 ++ B :: l3)) p m r
      = resolveDynS (A :: (l2 ++ B :: l3)) p m r :=
    resolveDynS_append_skip l1 _ p m r hskip
  simp only [Router.resolve, Router.resolveS, hstat, hdyn]
  rw [hskip2]
  simp [resolveDynS, if_pos hma, hA]

/-- Example dynamic route `/x/<int:a>`, registered first. -/
def c5routeA : Route := mkRoute Route.TYPE_CONVERTERS "/x/<int:a>" ⟨1, "h1"⟩ ["GET"] "ea"

/-- Example dynamic route `/x/<str:a>`, registered second. -/
def c5routeB : Route := mkRoute Route.TYPE_CONVERTERS "/x/<str:a>" ⟨2, "h2"⟩ ["GET"] "eb"

/-- Router holding the two overlapping dynamic routes in registration
order. -/
def c5router : Router :=
  addRoute! (addRoute! Router.empty "/x/<int:a>" ⟨1, "h1"⟩ ["GET"] "ea")
    "/x/<str:a>" ⟨2, "h2"⟩ ["GET"] "eb"

/-- Witness for C5: `/x/7` matches both `/x/<int:a>` and `/x/<str:a>`
under GET, and resolution returns the first-registered handler. -/
theorem first_registered_dynamic_wins_witness :
    c5router.resolve "/x/7" "GET" = .ok (⟨1, "h1"⟩, [("a", .vInt 7)]) := by
  exact first_registered_dynamic_wins c5router "/x/7" "GET" c5routeA c5routeB
    [] [] [] [("a", .vInt 7)] [("a", .vStr "7")]
    rfl rfl (by simp) (by decide) (by decide) (by decide) (by decide)

/-- C6: when the path is absent from the static table and every dynamic
route whose method set contains the request method fails the pattern
test, resolution raises NotFound — even though some dynamic route does
match the path under another method (the per-route method check runs
before the pattern test, so that route is skipped without being
recognised as a path match, and no MethodNotAllowed arises). -/
theorem method_mismatch_on_dynamic_gives_not_found (r : Router) (p m : String)
    (hstat : r.static_routes.lookup p = none)
    (hall : ∀ rt ∈ r.dynamic_routes, m ∈ rt.methods_set → rt.matchPath p = none)
    (hsome : ∃ rt ∈ r.dynamic_routes, rt.matchPath p ≠ none ∧ m ∉ rt.methods_set) :
    r.resolve p m = .error (.notFound s!"No route found for {p}") := by
  have hskip : ∀ rt ∈ r.dynamic_routes, m ∉ rt.methods_set ∨ rt.matchPath p = none := by
    intro rt hrt
    by_cases hm : m ∈ rt.methods_set
    · exact Or.inr (hall rt hrt hm)
    · exact Or.inl hm
  have h := resolveDynS_append_skip r.dynamic_routes [] p m r hskip
  rw [List.append_nil] at h
  simp only [Router.resolve, Router.resolveS, hstat, h, resolveDynS]

/-- The POST-only dynamic route `/y/<int:a>`. -/
def c6route : Route := mkRoute Route.TYPE_CONVERTERS "/y/<int:a>" ⟨3, "h3"⟩ ["POST"] "ey"

/-- Example router whose only route `/y/<int:a>` accepts POST only. -/
def c6router : Router := addRoute! Router.empty "/y/<int:a>" ⟨3, "h3"⟩ ["POST"] "ey"

/-- Witness for C6: `/y/5` matches the POST-only dynamic route pattern,
but a GET request yields NotFound, not MethodNotAllowed. -/
theorem method_mismatch_on_dynamic_gives_not_found_witness :
    c6router.resolve "/y/5" "GET" = .error (.notFound "No route found for /y/5") := by
  have hd : c6router.dynamic_routes = [c6route] := rfl
  refine method_mismatch_on_dynamic_gives_not_found c6router "/y/5" "GET" rfl ?_ ?_
  · intro rt hrt hm
    rw [hd, List.mem_singleton] at hrt
    rw [hrt] at hm
    exact absurd hm (by decide)
  · exact ⟨c6route, by rw [hd]; exact List.mem_singleton.mpr rfl, by decide, by decide⟩

/-- C8: a failing type conversion makes the route a non-match instead of
an error: when a dynamic route's compiled pattern structurally matches
the path but converting the captures fails, `match` returns no-match,
and resolution (here over registration list [rt, rt2]) carries on and
returns a later route that matches the same literal path. -/
theorem conversion_failure_skips_route (r : Router) (rt rt2 : Route) (p m : String)
    (g : List (String × String)) (ps2 : List (String × Value))
    (hstat : r.static_routes.lookup p = none)
    (hdyn : r.dynamic_routes = [rt, rt2])
    (hns : rt.is_static = false)
    (hre : regexMatch rt.regex p = some g)
    (hconv : convertParams rt.converters g = none)
    (hm : m ∈ rt.methods_set) (hm2 : m ∈ rt2.methods_set)
    (h2 : rt2.matchPath p = some ps2) :
    rt.matchPath p = none ∧ r.resolve p m = .ok (rt2.handler, ps2) := by
  have hmt : rt.matchPath p = none := by
    simp [Route.matchPath, hns, hre, hconv]
  refine ⟨hmt, ?_⟩
  simp [Router.resolve, Router.resolveS, hstat, hdyn, resolveDynS,
    if_pos hm, hmt, if_pos hm2, h2]

/-- A converter whose conversion always raises (the defensive path of
`Route.match`): an entry a host may install into the class-level
`TYPE_CONVERTERS` dict. -/
def failConv : Conv := fun _ => none

/-- A converter table extending the shipped one with a type `myint`
whose converter raises on every captured value. -/
def failTypeTable : TypeTable :=
  [("str", (pyStrConv, RegexPart.nonSlashPlus)),
   ("myint", (failConv, RegexPart.digitPlus))]

/-- Route `/n/<myint:v>` compiled against `failTypeTable`: its pattern
accepts a digit run but conversion of the capture fails. -/
def c8routeA : Route := mkRoute failTypeTable "/n/<myint:v>" ⟨1, "h1"⟩ ["GET"] "a"

/-- The looser route `/n/<str:v>`, registered second. -/
def c8routeB : Route := mkRoute Route.TYPE_CONVERTERS "/n/<str:v>" ⟨2, "h2"⟩ ["GET"] "b"

/-- Router with the failing-conversion route before the looser route. -/
def c8router : Router := ⟨[], [c8routeA, c8routeB], [], none, none⟩

/-- Witness for C8: on `/n/5` the first route's pattern matches but its
conversion fails, so the route is skipped and the later str route
answers. -/
theorem conversion_failure_skips_route_witness :
    c8routeA.matchPath "/n/5" = none ∧
    c8router.resolve "/n/5" "GET" = .ok (⟨2, "h2"⟩, [("v", .vStr "5")]) := by
  exact conversion_failure_skips_route c8router c8routeA c8routeB "/n/5" "GET"
    [("v", "5")] [("v", .vStr "5")]
    rfl rfl rfl (by decide) rfl (by decide) (by decide) (by decide)

/-- Router with the single dynamic route `/users/<int:user_id>` for GET,
endpoint `user_detail`. -/
def usersRouter : Router :=
  addRoute! Router.empty "/users/<int:user_id>" ⟨1, "user_handler"⟩ ["GET"] "user_detail"

/-- C4: on the router whose only route is `/users/<int:user_id>` under
GET, `/users/123` resolves to the handler with `user_id` bound to the
integer 123 (not the string "123"), while `/users/abc` raises NotFound
because `abc` fails the digit-only pattern. -/
theorem int_parameter_typed_and_digit_only :
    usersRouter.resolve "/users/123" "GET"
      = .ok (⟨1, "user_handler"⟩, [("user_id", .vInt 123)]) ∧
    usersRouter.resolve "/users/abc" "GET"
      = .error (.notFound "No route found for /users/abc") := by
  constructor
  · decide
  · decide

/-- The dynamic route `/file.<str:ext>`, whose literal text contains the
regex metacharacter dot. -/
def dotRoute : Route := mkRoute Route.TYPE_CONVERTERS "/file.<str:ext>" ⟨1, "serve"⟩ ["GET"] "serve"

/-- C10: literal text of a dynamic pattern is interpolated into the
matcher without escaping, so the dot of `/file.<str:ext>` acts as a
wildcard: the route accepts `/fileZpdf`, whose character at the dot
position is `Z`, not `.` — literal segments of dynamic routes are not
guaranteed to match only themselves. -/
theorem unescaped_literal_dot_matches_other_chars :
    dotRoute.is_static = false ∧
    dotRoute.matchPath "/fileZpdf" = some [("ext", .vStr "pdf")] ∧
    "/fileZpdf".data[5]? = some 'Z' ∧
    "/file.<str:ext>".data[5]? = some '.' ∧
    ('Z' : Char) ≠ '.' := by
  refine ⟨rfl, by decide, by decide, by decide, by decide⟩

/-- Modelled from the spec wording of the claim, for comparison with the
source: a parameter marker is a substring of the form `<type:name>`,
with type and name nonempty word runs.  `markerAt` asks whether such a
marker starts at the head of the character list. -/
def markerAt : List Char → Bool
  | '<' :: cs =>
      (match cs.dropWhile isWordChar with
        | ':' :: cs2 =>
            !(cs.takeWhile isWordChar).isEmpty &&
            !(cs2.takeWhile isWordChar).isEmpty &&
            ((cs2.dropWhile isWordChar).head? == some '>')
        | _ => false)
  | _ => false

/-- Spec-side definition: does some position of the text start a
parameter marker `<type:name>`? -/
def listHasMarker : List Char → Bool
  | [] => false
  | c :: cs => markerAt (c :: cs) || listHasMarker cs

/-- Spec-side definition of "the pattern contains a parameter marker". -/
def specHasParamMarker (s : String) : Bool :=
  listHasMarker s.data

/-- Counterexample to C7: the pattern `/a<b` contains no parameter
marker `<type:name>`, yet the constructed route is not static (the source
tests only for the character `<`), and registration places it in the
dynamic list, not the static table. -/
theorem marker_free_pattern_not_static :
    specHasParamMarker "/a<b" = false ∧
    (mkRoute Route.TYPE_CONVERTERS "/a<b" ⟨1, "h"⟩ ["GET"] "e").is_static = false ∧
    (Router.empty.add_route "/a<b" ⟨1, "h"⟩ (some ["GET"]) (some "e")).map
      (fun r => (r.static_routes.length, r.dynamic_routes.length)) = .ok (0, 1) := by
  refine ⟨by decide, rfl, by decide⟩

/-- C7 as amended: `is_static` is true exactly when the pattern contains
no `<` character (not: no `<type:name>` marker), and a route whose
pattern is `<`-free is matched by exact string equality. -/
theorem static_iff_no_left_angle (p : String) (hd : Handler)
    (ms : List String) (e : String) (q : String) :
    (mkRoute Route.TYPE_CONVERTERS p hd ms e).is_static = !p.data.contains '<' ∧
    (p.data.contains '<' = false →
      (mkRoute Route.TYPE_CONVERTERS p hd ms e).matchPath q
        = if q = p then some [] else none) := by
  constructor
  · by_cases hmem : '<' ∈ p.data <;> simp [mkRoute, hmem]
  · intro hc
    simp at hc
    simp [mkRoute, hc, Route.matchPath]

/-- Witness for C7 as amended, at the `<`-free pattern `/home`: the
route is static and matches exactly its own path. -/
theorem static_iff_no_left_angle_witness :
    (mkRoute Route.TYPE_CONVERTERS "/home" ⟨1, "h"⟩ ["GET"] "home").is_static = true ∧
    (mkRoute Route.TYPE_CONVERTERS "/home" ⟨1, "h"⟩ ["GET"] "home").matchPath "/home"
      = some [] ∧
    (mkRoute Route.TYPE_CONVERTERS "/home" ⟨1, "h"⟩ ["GET"] "home").matchPath "/homeX"
      = none := by
  have h1 := (static_iff_no_left_angle "/home" ⟨1, "h"⟩ ["GET"] "home" "/home").1
  have h2 := (static_iff_no_left_angle "/home" ⟨1, "h"⟩ ["GET"] "home" "/home").2 (by decide)
  have h3 := (static_iff_no_left_angle "/home" ⟨1, "h"⟩ ["GET"] "home" "/homeX").2 (by decide)
  refine ⟨h1.trans (by decide), h2.trans (by decide), h3.trans (by decide)⟩

/-- C1 exhibit: `add_route` never records anything in `endpoints`, so a
second registration under the same endpoint name `dup` is not rejected:
it succeeds, inserts the second route (here both paths land in the
static table) and `endpoints` stays empty — whereas the claim expects a
DuplicateEndpoint failure with the route table unchanged. -/
theorem duplicate_endpoint_not_rejected :
    ((Router.empty.add_route "/a" ⟨1, "h1"⟩ (some ["GET"]) (some "dup")).bind
      (fun r1 => r1.add_route "/b" ⟨2, "h2"⟩ (some ["GET"]) (some "dup"))).map
      (fun r2 => (r2.static_routes.map Prod.fst, r2.endpoints.length))
    = .ok (["/a", "/b"], 0) := by
  decide

/-- C2 exhibit: because `add_route` never fills `endpoints`, reverse
lookup is dead code: after registering `/users/<int:user_id>` under the
endpoint `user_detail`, url_for raises the unknown-endpoint ValueError
both with and without the `user_id` argument, instead of returning
`/users/42` or a MissingParameter error. -/
theorem url_for_always_unknown_endpoint :
    usersRouter.url_for "user_detail" [("user_id", .vInt 42)]
      = .error (.valueError "No route found for endpoint \x27user_detail\x27.") ∧
    usersRouter.url_for "user_detail" []
      = .error (.valueError "No route found for endpoint \x27user_detail\x27.") ∧
    usersRouter.endpoints = [] := by
  refine ⟨by decide, by decide, rfl⟩
